import Mathlib

/-!
Verification development for the cctv-ptz repository (Go).

The Go source in src/main.go is shallowly embedded below:
* machine bytes are modelled as natural numbers reduced mod 256 where the
  code performs a uint8 conversion;
* Go float32/float64 values are modelled as exact rationals; every concrete
  input used in a theorem below is dyadic and small enough that the Go
  float arithmetic at that input is exact, so the rational model agrees
  with the float computation there;
* fallible Go functions returning (value, error) are modelled with Except.
-/

/-- Pelco-D frame: the Go type PelcoDMessage is a fixed array of 7 bytes,
indexed by the named offsets SYNC, ADDR, COMMAND_1, COMMAND_2, DATA_1,
DATA_2, CHECKSUM; each named field below is the byte at that offset. -/
structure PelcoDMessage where
  sync : Nat
  addr : Nat
  command1 : Nat
  command2 : Nat
  data1 : Nat
  data2 : Nat
  checksum : Nat
deriving DecidableEq, Repr

/-- Well-formed frame: every byte is in range (the invariant of Go's [7]byte). -/
def PelcoDMessage.wf (m : PelcoDMessage) : Prop :=
  m.sync < 256 ∧ m.addr < 256 ∧ m.command1 < 256 ∧ m.command2 < 256 ∧
    m.data1 < 256 ∧ m.data2 < 256 ∧ m.checksum < 256

instance (m : PelcoDMessage) : Decidable m.wf := by
  unfold PelcoDMessage.wf; infer_instance

/-- List of the 7 bytes of a frame, in offset order. -/
def PelcoDMessage.toList (m : PelcoDMessage) : List Nat :=
  [m.sync, m.addr, m.command1, m.command2, m.data1, m.data2, m.checksum]

/-- Embeds func pelcoCreate() PelcoDMessage: a zero frame with the sync byte
set to 0xff. -/
def pelcoCreate : PelcoDMessage :=
  { sync := 0xff, addr := 0, command1 := 0, command2 := 0,
    data1 := 0, data2 := 0, checksum := 0 }

/-- Embeds func pelcoTo(buffer, addr): buffer[ADDR] = uint8(addr).  The Go
uint8 conversion of an int keeps the low 8 bits, i.e. reduces mod 256. -/
def pelcoTo (buffer : PelcoDMessage) (addr : Int) : PelcoDMessage :=
  { buffer with addr := (addr % 256).toNat }

/-- Embeds func pelcoChecksum(buffer): buffer[CHECKSUM] = uint8(sum of the
bytes at offsets 1..5); byte addition in Go wraps mod 256, which equals the
mod-256 reduction of the natural-number sum. -/
def pelcoChecksum (buffer : PelcoDMessage) : PelcoDMessage :=
  { buffer with
    checksum :=
      (buffer.addr + buffer.command1 + buffer.command2 + buffer.data1 + buffer.data2) % 256 }

/-- Errors of Go's encoding/hex package as they can reach decodeMessage:
hex.InvalidByteError and hex.ErrLength. -/
inductive HexError where
  | invalidByte
  | oddLength
deriving DecidableEq, Repr

/-- Embeds fromHexChar of Go's encoding/hex: accepts digits and both cases
of letters a-f. -/
def fromHexChar (c : Char) : Option Nat :=
  if '0' ≤ c ∧ c ≤ '9' then some (c.toNat - '0'.toNat)
  else if 'a' ≤ c ∧ c ≤ 'f' then some (c.toNat - 'a'.toNat + 10)
  else if 'A' ≤ c ∧ c ≤ 'F' then some (c.toNat - 'A'.toNat + 10)
  else none

/-- Embeds hex.DecodeString: consumes the characters two at a time, byte
value hi<<4 | lo; an invalid character yields InvalidByteError and a
trailing odd character yields ErrLength (decodeMessage discards the partial
output Go returns alongside the error, so the error cases are collapsed to
plain errors here). -/
def hexDecodeChars : List Char → Except HexError (List Nat)
  | [] => Except.ok []
  | [c] =>
    match fromHexChar c with
    | none => Except.error HexError.invalidByte
    | some _ => Except.error HexError.oddLength
  | hi :: lo :: rest =>
    match fromHexChar hi with
    | none => Except.error HexError.invalidByte
    | some a =>
      match fromHexChar lo with
      | none => Except.error HexError.invalidByte
      | some b =>
        match hexDecodeChars rest with
        | Except.error e => Except.error e
        | Except.ok bs => Except.ok (((a <<< 4) ||| b) :: bs)

/-- Embeds the Go statement copy(message[:], bytes) on a zero-valued
message: byte i of the result is bytes[i] when present and 0 otherwise
(shorter input leaves the tail zero, longer input is truncated at 7). -/
def pelcoOfBytes (bs : List Nat) : PelcoDMessage :=
  { sync := bs.getD 0 0, addr := bs.getD 1 0, command1 := bs.getD 2 0,
    command2 := bs.getD 3 0, data1 := bs.getD 4 0, data2 := bs.getD 5 0,
    checksum := bs.getD 6 0 }

/-- Embeds func decodeMessage(text string): hex-decode the text, propagate a
decode error, otherwise copy the decoded bytes into a zero frame. -/
def decodeMessage (text : String) : Except HexError PelcoDMessage :=
  match hexDecodeChars text.data with
  | Except.error e => Except.error e
  | Except.ok bytes => Except.ok (pelcoOfBytes bytes)

/-- Lower-case hex digit of a value below 16, as produced by Go's fmt %x. -/
def toHexChar (n : Nat) : Char :=
  if n < 10 then Char.ofNat ('0'.toNat + n) else Char.ofNat ('a'.toNat + n - 10)

/-- Two lower-case hex digits of one byte. -/
def encodeByteHex (b : Nat) : List Char :=
  [toHexChar (b / 16), toHexChar (b % 16)]

/-- Embeds the record/console encoding fmt.Sprintf with verb %x applied to a
[7]byte value: each byte printed as two lower-case hex digits, no
separators. -/
def encodeMessage (m : PelcoDMessage) : String :=
  String.mk (m.toList.map encodeByteHex).flatten

/-- Valid hex text in the sense of Go's hex.DecodeString: even length and
every character a hex digit. -/
def validHex (s : String) : Bool :=
  s.data.length % 2 == 0 && s.data.all fun c => (fromHexChar c).isSome

/-- Embeds type Axis of main.go: input channel index, symmetric raw bounds,
deadzone magnitude, inversion flag.  The Go fields are int32; indices are
the small constants 0..7, so the index is kept as a natural number for list
indexing. -/
structure Axis where
  Index : Nat
  Min : Int
  Max : Int
  Deadzone : Int
  Inverted : Bool
deriving DecidableEq, Repr

/-- Embeds joystick.State as used by main.go: raw signed axis readings and
a 32-bit button mask (kept as a natural number below 2^32 in use). -/
structure JoystickState where
  AxisData : List Int
  Buttons : Nat
deriving DecidableEq, Repr

/-- Embeds the package-level xbox layout value of main.go. -/
structure XboxLayout where
  LeftAxisX : Axis
  LeftAxisY : Axis
  RightAxisX : Axis
  RightAxisY : Axis
  LeftTrigger : Axis
  RightTrigger : Axis
  DPadX : Axis
  DPadY : Axis
  LeftBumper : Nat
  RightBumper : Nat
  A : Nat
  B : Nat
  X : Nat
  Y : Nat
  Start : Nat
  Back : Nat
  XBox : Nat

/-- AxisMax constant of main.go. -/
def AxisMax : Int := 32767

/-- MaxSpeed constant of main.go (0x3f). -/
def MaxSpeedConst : Int := 0x3f

/-- The xbox mapping table of main.go, field by field. -/
def xbox : XboxLayout :=
  { LeftAxisX := { Index := 0, Min := -AxisMax, Max := AxisMax, Deadzone := 8192, Inverted := false }
    LeftAxisY := { Index := 1, Min := -AxisMax, Max := AxisMax, Deadzone := 8192, Inverted := true }
    RightAxisX := { Index := 3, Min := -AxisMax, Max := AxisMax, Deadzone := 8192, Inverted := false }
    RightAxisY := { Index := 4, Min := -AxisMax, Max := AxisMax, Deadzone := 8192, Inverted := true }
    LeftTrigger := { Index := 2, Min := -AxisMax, Max := AxisMax, Deadzone := 1000, Inverted := false }
    RightTrigger := { Index := 5, Min := -AxisMax, Max := AxisMax, Deadzone := 1000, Inverted := false }
    DPadX := { Index := 6, Min := -AxisMax, Max := AxisMax, Deadzone := 1000, Inverted := false }
    DPadY := { Index := 7, Min := -AxisMax, Max := AxisMax, Deadzone := 1000, Inverted := false }
    LeftBumper := 1 <<< 4
    RightBumper := 1 <<< 5
    A := 1 <<< 0
    B := 1 <<< 1
    X := 1 <<< 2
    Y := 1 <<< 3
    Start := 1 <<< 7
    Back := 1 <<< 6
    XBox := 1 <<< 8 }

/-- Embeds the package-level ptz mapping value of main.go. -/
structure PtzLayout where
  PanX : Axis
  PanY : Axis
  ZoomIn : Nat
  ZoomOut : Nat
  OpenIris : Nat
  CloseIris : Nat
  OpenMenu : Nat
  IncPelcoAddr : Nat
  DecPelcoAddr : Nat
  ResetTimer : Nat
  MarkLeft : Axis
  MarkRight : Axis

/-- The ptz mapping table of main.go, field by field. -/
def ptz : PtzLayout :=
  { PanX := xbox.LeftAxisX
    PanY := xbox.RightAxisY
    ZoomIn := xbox.LeftBumper
    ZoomOut := xbox.RightBumper
    OpenIris := xbox.A
    CloseIris := xbox.B
    OpenMenu := xbox.Start
    IncPelcoAddr := xbox.Y
    DecPelcoAddr := xbox.X
    ResetTimer := xbox.Back
    MarkLeft := xbox.LeftTrigger
    MarkRight := xbox.RightTrigger }

/-- Embeds func isPressed(state, mask): the button mask intersected with
the state's button bits is nonzero. -/
def isPressed (state : JoystickState) (mask : Nat) : Bool :=
  state.Buttons &&& mask != 0

/-- Embeds func normalizeAxis(state, axis) of main.go, float32 arithmetic
modelled exactly over the rationals.  The source reads
state.AxisData[axis.Index]; a missing index is read as 0 here (the xbox
table only uses indices 0..7 and the driver supplies at least that many
axes).  Note the branch structure of the source: a value equal to the
deadzone (or its negation) satisfies none of the four conditions and is
returned unchanged. -/
def normalizeAxis (state : JoystickState) (axis : Axis) : ℚ :=
  let value : ℚ := ((state.AxisData.getD axis.Index 0 : Int) : ℚ)
  let deadzone : ℚ := ((axis.Deadzone : Int) : ℚ)
  let maxv : ℚ := ((axis.Max : Int) : ℚ)
  let value := if axis.Inverted then -value else value
  if value > 0 ∧ value < deadzone then 0
  else if value > deadzone then (value - deadzone) / (maxv - deadzone)
  else if value < 0 ∧ value > -deadzone then 0
  else if value < -deadzone then (value + deadzone) / (maxv - deadzone)
  else value

/-- Embeds func isMarkTriggered(state, axis): the normalized trigger value
exceeds 0.5. -/
def isMarkTriggered (state : JoystickState) (axis : Axis) : Bool :=
  decide ((1 : ℚ) / 2 < normalizeAxis state axis)

/-- Truncation toward zero of a rational, as the Go float64-to-integer
conversion does. -/
def ratTrunc (q : ℚ) : Int :=
  if 0 ≤ q then ⌊q⌋ else -⌊-q⌋

/-- Embeds the Go conversion uint8(f) for a float64 value f: truncate
toward zero and keep the low 8 bits.  Every use in the source feeds it a
value in [0, 63], where this equals plain truncation. -/
def uint8OfRat (q : ℚ) : Nat :=
  ((ratTrunc q) % 256).toNat

/-- Embeds the pan-direction statement of func pelcoApplyJoystick: bit 1 of
command2 for positive panX, bit 2 for negative. -/
def panStage (buffer : PelcoDMessage) (panX : ℚ) : PelcoDMessage :=
  if panX > 0 then { buffer with command2 := buffer.command2 ||| (1 <<< 1) }
  else if panX < 0 then { buffer with command2 := buffer.command2 ||| (1 <<< 2) }
  else buffer

/-- Embeds the pan-speed assignment: data1 = uint8(maxSpeed * |panX|). -/
def panSpeedStage (buffer : PelcoDMessage) (panX : ℚ) (maxSpeed : Int) : PelcoDMessage :=
  { buffer with data1 := uint8OfRat ((maxSpeed : ℚ) * |panX|) }

/-- Embeds the tilt-direction statement: bit 3 of command2 for positive
panY, bit 4 for negative. -/
def tiltStage (buffer : PelcoDMessage) (panY : ℚ) : PelcoDMessage :=
  if panY > 0 then { buffer with command2 := buffer.command2 ||| (1 <<< 3) }
  else if panY < 0 then { buffer with command2 := buffer.command2 ||| (1 <<< 4) }
  else buffer

/-- Embeds the tilt-speed assignment: data2 = uint8(maxSpeed * |panY|). -/
def tiltSpeedStage (buffer : PelcoDMessage) (panY : ℚ) (maxSpeed : Int) : PelcoDMessage :=
  { buffer with data2 := uint8OfRat ((maxSpeed : ℚ) * |panY|) }

/-- Embeds the zoom statement: bit 5 of command2 for positive zoom, bit 6
for negative. -/
def zoomStage (buffer : PelcoDMessage) (zoom : ℚ) : PelcoDMessage :=
  if zoom > 0 then { buffer with command2 := buffer.command2 ||| (1 <<< 5) }
  else if zoom < 0 then { buffer with command2 := buffer.command2 ||| (1 <<< 6) }
  else buffer

/-- Embeds the iris statement: bit 1 of command1 when openIris, else bit 2
when closeIris. -/
def irisStage (buffer : PelcoDMessage) (openIris closeIris : Bool) : PelcoDMessage :=
  if openIris then { buffer with command1 := buffer.command1 ||| (1 <<< 1) }
  else if closeIris then { buffer with command1 := buffer.command1 ||| (1 <<< 2) }
  else buffer

/-- Embeds func pelcoApplyJoystick of main.go: the menu shortcut overwrites
the command/data region and returns at once; otherwise the statement blocks
of the source are applied to the buffer in source order (pan bits, pan
speed, tilt bits, tilt speed, zoom bits, iris bits). -/
def pelcoApplyJoystick (buffer : PelcoDMessage) (panX panY zoom : ℚ)
    (openIris closeIris openMenu : Bool) (maxSpeed : Int) : PelcoDMessage :=
  if openMenu then
    { buffer with command1 := 0x00, command2 := 0x03, data1 := 0x00, data2 := 0x5F }
  else
    irisStage
      (zoomStage
        (tiltSpeedStage
          (tiltStage
            (panSpeedStage (panStage buffer panX) panX maxSpeed)
            panY)
          panY maxSpeed)
        zoom)
      openIris closeIris

/-- Embeds func joystickToPelco of main.go: normalize the two pan axes,
read the buttons, give zoom-out priority over zoom-in, and apply. -/
def joystickToPelco (buffer : PelcoDMessage) (state : JoystickState) (maxSpeed : Int) :
    PelcoDMessage :=
  let panX := normalizeAxis state ptz.PanX
  let panY := normalizeAxis state ptz.PanY
  let openIris := isPressed state ptz.OpenIris
  let closeIris := isPressed state ptz.CloseIris
  let openMenu := isPressed state ptz.OpenMenu
  let zoom : ℚ :=
    if isPressed state ptz.ZoomOut then -1
    else if isPressed state ptz.ZoomIn then 1
    else 0
  pelcoApplyJoystick buffer panX panY zoom openIris closeIris openMenu maxSpeed

/-- One line written to the record sink by the interactive loop: either a
mark comment (the source writes the literal comment lines for the left and
right trigger marks) or a pelco-d line carrying the frame and the elapsed
milliseconds. -/
inductive RecordLine where
  | markLeft
  | markRight
  | pelco (message : PelcoDMessage) (millis : Int)
deriving DecidableEq, Repr

/-- The mutable state of func interactive that one loop iteration reads and
writes: the Pelco address (conf.Address), the pending timer reset flag, the
clock reference startTime (nanoseconds), the previously emitted frame, and
whether the single-slot address-change permit is currently available (the
buffered channel allowAddressChange holds a token). -/
structure LoopState where
  address : Int
  resetTimer : Bool
  startTime : Int
  lastMessage : PelcoDMessage
  permitAvailable : Bool
deriving DecidableEq, Repr

/-- Everything one iteration of the interactive loop emits: console frame
lines (stdout in verbose mode, the overwritten stderr status line
otherwise — both modelled as console output), record-sink lines, and raw
frames written to the serial device. -/
structure StepOutput where
  console : List (PelcoDMessage × Int)
  recordLines : List RecordLine
  device : List PelcoDMessage
deriving DecidableEq, Repr

/-- Embeds the address-adjustment block at the top of the loop body
together with func limitChange: a change happens only when the permit is
available and consumes it (the delayed re-arm is an asynchronous event
outside a single iteration). -/
def stepAddressPermit (address : Int) (permit : Bool) (state : JoystickState) : Int × Bool :=
  if isPressed state ptz.DecPelcoAddr then
    if permit then (address - 1, false) else (address, permit)
  else if isPressed state ptz.IncPelcoAddr then
    if permit then (address + 1, false) else (address, permit)
  else (address, permit)

/-- The frame the loop body builds from the current address and controller
snapshot: pelcoCreate, pelcoTo, joystickToPelco, pelcoChecksum. -/
def buildMessage (address : Int) (state : JoystickState) (maxSpeed : Int) : PelcoDMessage :=
  pelcoChecksum (joystickToPelco (pelcoTo pelcoCreate address) state maxSpeed)

/-- Embeds one iteration of the select body of func interactive for a
joystick sample: adjust the address under the rate limiter, latch the
reset flag, write mark comments, build the frame, and emit it only when it
differs from the previously emitted frame.  now is the current clock in
nanoseconds; millis is integer division by 1e6 as in the source. -/
def interactiveStep (maxSpeed : Int) (serialEnabled : Bool) (s : LoopState)
    (state : JoystickState) (now : Int) : LoopState × StepOutput :=
  let ap := stepAddressPermit s.address s.permitAvailable state
  let resetTimer := if isPressed state ptz.ResetTimer then true else s.resetTimer
  let marks :=
    (if isMarkTriggered state ptz.MarkLeft then [RecordLine.markLeft] else []) ++
    (if isMarkTriggered state ptz.MarkRight then [RecordLine.markRight] else [])
  let message := buildMessage ap.1 state maxSpeed
  if s.lastMessage ≠ message then
    let millis : Int := if resetTimer then 0 else (now - s.startTime) / 1000000
    ({ address := ap.1, resetTimer := false, startTime := now,
       lastMessage := message, permitAvailable := ap.2 },
     { console := [(message, millis)],
       recordLines := marks ++ [RecordLine.pelco message millis],
       device := if serialEnabled then [message] else [] })
  else
    ({ address := ap.1, resetTimer := resetTimer, startTime := s.startTime,
       lastMessage := s.lastMessage, permitAvailable := ap.2 },
     { console := [], recordLines := marks, device := [] })

/-- The pelco-d lines among a list of record lines (mark comments are
filtered out). -/
def pelcoLines (ls : List RecordLine) : List RecordLine :=
  ls.filter fun l =>
    match l with
    | RecordLine.pelco _ _ => true
    | _ => false

/-- Embeds type DelayedMessage: a frame together with the wait (in
nanoseconds, Go time.Duration) before sending it relative to the previous
frame. -/
structure DelayedMessage where
  Message : PelcoDMessage
  Delay : Nat
deriving DecidableEq, Repr

/-- A default frame value for out-of-range list reads in statements. -/
def dummyDelayed : DelayedMessage :=
  { Message := pelcoCreate, Delay := 0 }

/-- Send instants of the tail of the replay queue.  t is the send instant
of the previous frame; each further frame k waits its own Delay after the
previous send, plus a nonnegative scheduling latency lat k (channel wait
and sleep overshoot — time.Sleep never wakes early). -/
def sendTimesAux (lat : Nat → Nat) : List DelayedMessage → Nat → Nat → List Nat
  | [], _, _ => []
  | m :: rest, t, k =>
    let t' := t + lat k + m.Delay
    t' :: sendTimesAux lat rest t' (k + 1)

/-- Embeds the timing discipline of func sendDelayedMessages: the first
frame received is sent without any sleep (at the start instant plus only
scheduling latency, its Delay ignored); every later frame is sent its
Delay after the previous send, plus latency. -/
def sendTimes (start : Nat) (lat : Nat → Nat) : List DelayedMessage → List Nat
  | [] => []
  | _ :: rest =>
    let t0 := start + lat 0
    t0 :: sendTimesAux lat rest t0 1

/-- Events observable on the channel returned by func listenFile: a
forwarded non-blank line, or the channel closing. -/
inductive StdinEvent where
  | line (bytes : List Nat)
  | closed
deriving DecidableEq, Repr

/-- Embeds func listenFile: scan the input line by line, forward each line
on the channel until the first blank line (which breaks the scan), then
close the channel; end of stream also closes it. -/
def listenFileEvents (lines : List (List Nat)) : List StdinEvent :=
  ((lines.takeWhile fun l => !l.isEmpty).map StdinEvent.line) ++ [StdinEvent.closed]

/-- One event delivered to the select of func interactive: something on
the stdin observer channel, or a joystick sample with its arrival time. -/
inductive LoopEvent where
  | stdin (e : StdinEvent)
  | js (state : JoystickState) (now : Int)
deriving DecidableEq, Repr

/-- Whether a loop event is a stdin-channel event. -/
def LoopEvent.isStdin : LoopEvent → Bool
  | LoopEvent.stdin _ => true
  | LoopEvent.js _ _ => false

/-- Embeds the select loop of func interactive over a finite prefix of its
event stream: a receive on the stdin observer channel (a forwarded line as
well as the close after a blank line or end of stream) makes the loop
return; a joystick sample runs one loop body iteration.  Returns the
outputs of the processed iterations and whether the loop returned within
the given events. -/
def interactiveRun (maxSpeed : Int) (serialEnabled : Bool) :
    LoopState → List LoopEvent → List StepOutput × Bool
  | _, [] => ([], false)
  | _, LoopEvent.stdin _ :: _ => ([], true)
  | s, LoopEvent.js state now :: rest =>
    let p := interactiveStep maxSpeed serialEnabled s state now
    let r := interactiveRun maxSpeed serialEnabled p.1 rest
    (p.2 :: r.1, r.2)

theorem hexDecodeChars_isOk : ∀ l : List Char,
    (hexDecodeChars l).isOk = (l.length % 2 == 0 && l.all fun c => (fromHexChar c).isSome)
  | [] => by simp [hexDecodeChars, Except.isOk, Except.toBool]
  | [c] => by
    cases h : fromHexChar c <;> simp [hexDecodeChars, h, Except.isOk, Except.toBool]
  | hi :: lo :: rest => by
    have ih := hexDecodeChars_isOk rest
    have hmod : (rest.length + 1 + 1) % 2 = rest.length % 2 := by omega
    cases hh : fromHexChar hi
    · simp [hexDecodeChars, hh, Except.isOk, Except.toBool]
    · cases hl : fromHexChar lo
      · simp [hexDecodeChars, hh, hl, Except.isOk, Except.toBool]
      · cases hr : hexDecodeChars rest <;>
          simp_all [hexDecodeChars, hh, hl, hr, Except.isOk, Except.toBool, hmod]

/-- C1: for every address a in [0,255], pelcoCreate then pelcoTo a then
pelcoChecksum yields a frame whose byte at offset 1 (addr) equals a and
whose byte at offset 6 (checksum) is the sum of bytes 1 through 5 reduced
mod 256. -/
theorem pelco_create_to_checksum_spec (a : Int) (h0 : 0 ≤ a) (h1 : a ≤ 255) :
    (pelcoChecksum (pelcoTo pelcoCreate a)).addr = a.toNat ∧
    (pelcoChecksum (pelcoTo pelcoCreate a)).checksum =
      ((pelcoChecksum (pelcoTo pelcoCreate a)).addr +
        (pelcoChecksum (pelcoTo pelcoCreate a)).command1 +
        (pelcoChecksum (pelcoTo pelcoCreate a)).command2 +
        (pelcoChecksum (pelcoTo pelcoCreate a)).data1 +
        (pelcoChecksum (pelcoTo pelcoCreate a)).data2) % 256 := by
  constructor
  · simp [pelcoChecksum, pelcoTo, pelcoCreate]
    rw [Int.emod_eq_of_lt h0 (by omega)]
  · simp [pelcoChecksum, pelcoTo, pelcoCreate]

/-- Witness for C1 at the concrete address 7. -/
theorem pelco_create_to_checksum_spec_witness :
    (pelcoChecksum (pelcoTo pelcoCreate 7)).addr = (7 : Int).toNat ∧
    (pelcoChecksum (pelcoTo pelcoCreate 7)).checksum =
      ((pelcoChecksum (pelcoTo pelcoCreate 7)).addr +
        (pelcoChecksum (pelcoTo pelcoCreate 7)).command1 +
        (pelcoChecksum (pelcoTo pelcoCreate 7)).command2 +
        (pelcoChecksum (pelcoTo pelcoCreate 7)).data1 +
        (pelcoChecksum (pelcoTo pelcoCreate 7)).data2) % 256 :=
  pelco_create_to_checksum_spec 7 (by decide) (by decide)

/-- C2 counterexample: the two-character hex text consisting of the letter
f twice is valid hex that decodes to a single byte, yet decodeMessage
accepts it and zero-pads the frame instead of failing, contradicting the
claim that non-7-byte input yields an error. -/
theorem decodeMessage_short_hex_ok :
    decodeMessage (String.mk ['f', 'f']) =
      Except.ok { sync := 255, addr := 0, command1 := 0, command2 := 0,
                  data1 := 0, data2 := 0, checksum := 0 } ∧
    hexDecodeChars ['f', 'f'] = Except.ok [255] := by
  exact ⟨rfl, rfl⟩

/-- C2 amended: decodeMessage fails exactly when the text is not valid hex
(odd length or a character that is not a hex digit); the decoded length is
never checked, so fewer than 7 decoded bytes zero-pad the frame tail and
more than 7 are truncated. -/
theorem decode_isOk_eq_validHex (s : String) :
    (decodeMessage s).isOk = validHex s := by
  unfold decodeMessage validHex
  rw [← hexDecodeChars_isOk]
  cases h : hexDecodeChars s.data <;> simp [Except.isOk, Except.toBool]

/-- C3: at a raw reading exactly equal to the deadzone (8192 on the pan-x
axis spec), none of the four branches of normalizeAxis applies and the raw
value is returned unchanged: the result is 8192, far outside [-1, 1],
although the claimed formula gives (|8192| - 8192) / (32767 - 8192) = 0. -/
theorem normalizeAxis_deadzone_boundary_eval :
    normalizeAxis { AxisData := [8192], Buttons := 0 } ptz.PanX = 8192 ∧
    (|(8192 : ℚ)| - 8192) / (32767 - 8192) = 0 ∧ ¬((8192 : ℚ) ≤ 1) := by
  refine ⟨by decide, by norm_num, by norm_num⟩

/-- C5: whenever the menu button (Start) is pressed, the mapped frame's
command/data region is exactly the preset-95 shortcut, whatever else the
controller snapshot asserts and whatever the incoming buffer holds. -/
theorem menu_priority_overrides_all (buffer : PelcoDMessage) (state : JoystickState)
    (maxSpeed : Int) (h : isPressed state ptz.OpenMenu = true) :
    (joystickToPelco buffer state maxSpeed).command1 = 0x00 ∧
    (joystickToPelco buffer state maxSpeed).command2 = 0x03 ∧
    (joystickToPelco buffer state maxSpeed).data1 = 0x00 ∧
    (joystickToPelco buffer state maxSpeed).data2 = 0x5F := by
  simp [joystickToPelco, pelcoApplyJoystick, h]

/-- Witness for C5: menu pressed together with full pan deflection, a held
zoom button, both iris buttons and a tilted stick. -/
theorem menu_priority_overrides_all_witness :
    (joystickToPelco (pelcoTo pelcoCreate 2)
        { AxisData := [32767, 0, 0, 0, 16000, 0, 0, 0], Buttons := 255 } 63).command1 = 0x00 ∧
    (joystickToPelco (pelcoTo pelcoCreate 2)
        { AxisData := [32767, 0, 0, 0, 16000, 0, 0, 0], Buttons := 255 } 63).command2 = 0x03 ∧
    (joystickToPelco (pelcoTo pelcoCreate 2)
        { AxisData := [32767, 0, 0, 0, 16000, 0, 0, 0], Buttons := 255 } 63).data1 = 0x00 ∧
    (joystickToPelco (pelcoTo pelcoCreate 2)
        { AxisData := [32767, 0, 0, 0, 16000, 0, 0, 0], Buttons := 255 } 63).data2 = 0x5F :=
  menu_priority_overrides_all (pelcoTo pelcoCreate 2)
    { AxisData := [32767, 0, 0, 0, 16000, 0, 0, 0], Buttons := 255 } 63 (by decide)

/-- A lower-case hex digit: a decimal digit or one of the letters a to f. -/
def isLowerHexChar (c : Char) : Bool :=
  ('0' ≤ c && c ≤ '9') || ('a' ≤ c && c ≤ 'f')

set_option maxRecDepth 4000 in
theorem fromHexChar_toHexChar : ∀ n : Fin 16, fromHexChar (toHexChar n.val) = some n.val := by
  decide

set_option maxRecDepth 40000 in
theorem div_shift_lor_mod : ∀ b : Fin 256, ((b.val / 16) <<< 4) ||| (b.val % 16) = b.val := by
  decide

set_option maxRecDepth 40000 in
theorem encodeByteHex_all_lower : ∀ b : Fin 256, (encodeByteHex b.val).all isLowerHexChar = true := by
  decide

theorem hexDecodeChars_encodeByte (b : Nat) (hb : b < 256) (rest : List Char) :
    hexDecodeChars (encodeByteHex b ++ rest) =
      (hexDecodeChars rest).map fun bs => b :: bs := by
  have h16 : b / 16 < 16 := by omega
  have hm : b % 16 < 16 := Nat.mod_lt _ (by omega)
  have hhi := fromHexChar_toHexChar ⟨b / 16, h16⟩
  have hlo := fromHexChar_toHexChar ⟨b % 16, hm⟩
  have hcomb := div_shift_lor_mod ⟨b, hb⟩
  simp only [encodeByteHex, List.cons_append, List.nil_append]
  rw [hexDecodeChars]
  simp only [hhi, hlo, hcomb]
  cases hr : hexDecodeChars rest <;> simp [Except.map]

theorem encodeMessage_length (f : PelcoDMessage) : (encodeMessage f).length = 14 := by
  simp [encodeMessage, PelcoDMessage.toList, encodeByteHex, String.length]

theorem encodeMessage_all_lower (f : PelcoDMessage) (h : f.wf) :
    (encodeMessage f).data.all isLowerHexChar = true := by
  obtain ⟨h1, h2, h3, h4, h5, h6, h7⟩ := h
  rw [List.all_eq_true]
  intro c hc
  have hdata : (encodeMessage f).data = (f.toList.map encodeByteHex).flatten := rfl
  rw [hdata, List.mem_flatten] at hc
  obtain ⟨l, hl, hcl⟩ := hc
  simp only [PelcoDMessage.toList, List.map_cons, List.map_nil, List.mem_cons,
    List.not_mem_nil, or_false] at hl
  have key : ∀ b : Nat, b < 256 → l = encodeByteHex b → isLowerHexChar c = true := by
    intro b hb he
    have := encodeByteHex_all_lower ⟨b, hb⟩
    rw [List.all_eq_true] at this
    exact this c (he ▸ hcl)
  rcases hl with h | h | h | h | h | h | h
  · exact key f.sync h1 h
  · exact key f.addr h2 h
  · exact key f.command1 h3 h
  · exact key f.command2 h4 h
  · exact key f.data1 h5 h
  · exact key f.data2 h6 h
  · exact key f.checksum h7 h

theorem decodeMessage_encodeMessage (f : PelcoDMessage) (h : f.wf) :
    decodeMessage (encodeMessage f) = Except.ok f := by
  obtain ⟨h1, h2, h3, h4, h5, h6, h7⟩ := h
  unfold decodeMessage encodeMessage
  simp only [PelcoDMessage.toList, List.map_cons, List.map_nil, List.flatten_cons,
    List.flatten_nil, List.append_nil]
  rw [hexDecodeChars_encodeByte f.sync h1, hexDecodeChars_encodeByte f.addr h2,
    hexDecodeChars_encodeByte f.command1 h3, hexDecodeChars_encodeByte f.command2 h4,
    hexDecodeChars_encodeByte f.data1 h5, hexDecodeChars_encodeByte f.data2 h6]
  rw [show encodeByteHex f.checksum = encodeByteHex f.checksum ++ ([] : List Char) from
    (List.append_nil _).symm]
  rw [hexDecodeChars_encodeByte f.checksum h7]
  simp [hexDecodeChars, Except.map, pelcoOfBytes]

/-- C4: for every well-formed 7-byte frame, the hex encoding is a 14
character string of lower-case hex digits with no separators, and decoding
it returns the frame unchanged. -/
theorem decode_encode_roundtrip (f : PelcoDMessage) (h : f.wf) :
    (encodeMessage f).length = 14 ∧
    (encodeMessage f).data.all isLowerHexChar = true ∧
    decodeMessage (encodeMessage f) = Except.ok f :=
  ⟨encodeMessage_length f, encodeMessage_all_lower f h, decodeMessage_encodeMessage f h⟩

/-- Witness for C4 at a concrete well-formed frame. -/
theorem decode_encode_roundtrip_witness :
    (encodeMessage { sync := 255, addr := 1, command1 := 2, command2 := 3,
                     data1 := 4, data2 := 5, checksum := 15 }).length = 14 ∧
    (encodeMessage { sync := 255, addr := 1, command1 := 2, command2 := 3,
                     data1 := 4, data2 := 5, checksum := 15 }).data.all isLowerHexChar = true ∧
    decodeMessage (encodeMessage { sync := 255, addr := 1, command1 := 2, command2 := 3,
                                   data1 := 4, data2 := 5, checksum := 15 }) =
      Except.ok { sync := 255, addr := 1, command1 := 2, command2 := 3,
                  data1 := 4, data2 := 5, checksum := 15 } :=
  decode_encode_roundtrip
    { sync := 255, addr := 1, command1 := 2, command2 := 3,
      data1 := 4, data2 := 5, checksum := 15 } (by decide)

theorem uint8OfRat_eq_floor (q : ℚ) (h0 : 0 ≤ q) (h1 : q < 256) :
    uint8OfRat q = (⌊q⌋).toNat := by
  unfold uint8OfRat ratTrunc
  rw [if_pos h0]
  have hf0 : 0 ≤ ⌊q⌋ := Int.floor_nonneg.mpr h0
  have hf1 : ⌊q⌋ < 256 := Int.floor_lt.mpr (by exact_mod_cast h1)
  rw [Int.emod_eq_of_lt hf0 hf1]

theorem panStage_command2 (buffer : PelcoDMessage) (panX : ℚ) :
    (panStage buffer panX).command2 =
      buffer.command2 ||| (if panX > 0 then 2 else if panX < 0 then 4 else 0) := by
  unfold panStage
  split_ifs <;> simp

theorem tiltStage_command2 (buffer : PelcoDMessage) (panY : ℚ) :
    (tiltStage buffer panY).command2 =
      buffer.command2 ||| (if panY > 0 then 8 else if panY < 0 then 16 else 0) := by
  unfold tiltStage
  split_ifs <;> simp

theorem zoomStage_command2 (buffer : PelcoDMessage) (zoom : ℚ) :
    (zoomStage buffer zoom).command2 =
      buffer.command2 ||| (if zoom > 0 then 32 else if zoom < 0 then 64 else 0) := by
  unfold zoomStage
  split_ifs <;> simp

theorem irisStage_command2 (buffer : PelcoDMessage) (oI cI : Bool) :
    (irisStage buffer oI cI).command2 = buffer.command2 := by
  unfold irisStage
  split_ifs <;> simp

theorem panStage_data1 (buffer : PelcoDMessage) (panX : ℚ) :
    (panStage buffer panX).data1 = buffer.data1 := by
  unfold panStage; split_ifs <;> simp

theorem tiltStage_data1 (buffer : PelcoDMessage) (panY : ℚ) :
    (tiltStage buffer panY).data1 = buffer.data1 := by
  unfold tiltStage; split_ifs <;> simp

theorem zoomStage_data1 (buffer : PelcoDMessage) (zoom : ℚ) :
    (zoomStage buffer zoom).data1 = buffer.data1 := by
  unfold zoomStage; split_ifs <;> simp

theorem irisStage_data1 (buffer : PelcoDMessage) (oI cI : Bool) :
    (irisStage buffer oI cI).data1 = buffer.data1 := by
  unfold irisStage; split_ifs <;> simp

theorem panSpeedStage_command2 (buffer : PelcoDMessage) (panX : ℚ) (maxSpeed : Int) :
    (panSpeedStage buffer panX maxSpeed).command2 = buffer.command2 := rfl

theorem tiltSpeedStage_command2 (buffer : PelcoDMessage) (panY : ℚ) (maxSpeed : Int) :
    (tiltSpeedStage buffer panY maxSpeed).command2 = buffer.command2 := rfl

theorem panSpeedStage_data1 (buffer : PelcoDMessage) (panX : ℚ) (maxSpeed : Int) :
    (panSpeedStage buffer panX maxSpeed).data1 = uint8OfRat ((maxSpeed : ℚ) * |panX|) := rfl

theorem tiltSpeedStage_data1 (buffer : PelcoDMessage) (panY : ℚ) (maxSpeed : Int) :
    (tiltSpeedStage buffer panY maxSpeed).data1 = buffer.data1 := rfl

theorem applyJoystick_command2 (buffer : PelcoDMessage) (panX panY zoom : ℚ)
    (oI cI : Bool) (maxSpeed : Int) :
    (pelcoApplyJoystick buffer panX panY zoom oI cI false maxSpeed).command2 =
      ((buffer.command2 ||| (if panX > 0 then 2 else if panX < 0 then 4 else 0)) |||
        (if panY > 0 then 8 else if panY < 0 then 16 else 0)) |||
        (if zoom > 0 then 32 else if zoom < 0 then 64 else 0) := by
  unfold pelcoApplyJoystick
  rw [if_neg (by simp)]
  rw [irisStage_command2, zoomStage_command2, tiltSpeedStage_command2, tiltStage_command2,
    panSpeedStage_command2, panStage_command2]

theorem applyJoystick_data1 (buffer : PelcoDMessage) (panX panY zoom : ℚ)
    (oI cI : Bool) (maxSpeed : Int) :
    (pelcoApplyJoystick buffer panX panY zoom oI cI false maxSpeed).data1 =
      uint8OfRat ((maxSpeed : ℚ) * |panX|) := by
  unfold pelcoApplyJoystick
  rw [if_neg (by simp)]
  rw [irisStage_data1, zoomStage_data1, tiltSpeedStage_data1, tiltStage_data1,
    panSpeedStage_data1]

/-- C6 amended: with the menu input not asserted and a zeroed command2
byte, the mapper sets command2 bit 1 exactly when panX is positive and bit
2 exactly when panX is negative, never both, and sets data1 to
maxSpeed times |panX| truncated toward zero (not rounded). -/
theorem pan_bits_and_speed_truncation (buffer : PelcoDMessage) (panX panY zoom : ℚ)
    (oI cI : Bool) (maxSpeed : Int)
    (hb : buffer.command2 = 0) (hx1 : -1 ≤ panX) (hx2 : panX ≤ 1)
    (hm1 : 0 ≤ maxSpeed) (hm2 : maxSpeed ≤ 63) :
    ((pelcoApplyJoystick buffer panX panY zoom oI cI false maxSpeed).command2.testBit 1 = true
        ↔ 0 < panX) ∧
    ((pelcoApplyJoystick buffer panX panY zoom oI cI false maxSpeed).command2.testBit 2 = true
        ↔ panX < 0) ∧
    ¬((pelcoApplyJoystick buffer panX panY zoom oI cI false maxSpeed).command2.testBit 1 = true ∧
      (pelcoApplyJoystick buffer panX panY zoom oI cI false maxSpeed).command2.testBit 2 = true) ∧
    (pelcoApplyJoystick buffer panX panY zoom oI cI false maxSpeed).data1 =
      (⌊(maxSpeed : ℚ) * |panX|⌋).toNat := by
  have hc2 := applyJoystick_command2 buffer panX panY zoom oI cI maxSpeed
  rw [hb] at hc2
  have hq0 : (0 : ℚ) ≤ (maxSpeed : ℚ) * |panX| := mul_nonneg (by exact_mod_cast hm1) (abs_nonneg _)
  have hq1 : (maxSpeed : ℚ) * |panX| < 256 := by
    have habs : |panX| ≤ 1 := abs_le.mpr ⟨hx1, hx2⟩
    have hle : (maxSpeed : ℚ) * |panX| ≤ 63 * 1 :=
      mul_le_mul (by exact_mod_cast hm2) habs (abs_nonneg _) (by norm_num)
    linarith
  have hdata := applyJoystick_data1 buffer panX panY zoom oI cI maxSpeed
  rw [uint8OfRat_eq_floor _ hq0 hq1] at hdata
  have hpy1 : (if panY > 0 then 8 else if panY < 0 then 16 else (0 : ℕ)).testBit 1 = false := by
    split_ifs <;> decide
  have hpz1 : (if zoom > 0 then 32 else if zoom < 0 then 64 else (0 : ℕ)).testBit 1 = false := by
    split_ifs <;> decide
  have hpy2 : (if panY > 0 then 8 else if panY < 0 then 16 else (0 : ℕ)).testBit 2 = false := by
    split_ifs <;> decide
  have hpz2 : (if zoom > 0 then 32 else if zoom < 0 then 64 else (0 : ℕ)).testBit 2 = false := by
    split_ifs <;> decide
  have ht1 : (pelcoApplyJoystick buffer panX panY zoom oI cI false maxSpeed).command2.testBit 1
      = true ↔ 0 < panX := by
    rw [hc2]
    simp only [Nat.testBit_lor, hpy1, hpz1, Bool.or_false, Nat.zero_or]
    split_ifs with h1 h2
    · exact iff_of_true (by decide) h1
    · simp only [show (4 : ℕ).testBit 1 = false from by decide]
      exact iff_of_false (by simp) h1
    · exact iff_of_false (by decide) h1
  have ht2 : (pelcoApplyJoystick buffer panX panY zoom oI cI false maxSpeed).command2.testBit 2
      = true ↔ panX < 0 := by
    rw [hc2]
    simp only [Nat.testBit_lor, hpy2, hpz2, Bool.or_false, Nat.zero_or]
    split_ifs with h1 h2
    · simp only [show (2 : ℕ).testBit 2 = false from by decide]
      exact iff_of_false (by simp) (lt_asymm h1)
    · exact iff_of_true (by decide) h2
    · exact iff_of_false (by decide) h2
  refine ⟨ht1, ht2, ?_, hdata⟩
  rintro ⟨b1, b2⟩
  exact absurd (ht2.mp b2) (lt_asymm (ht1.mp b1))

/-- C6 counterexample: at panX = 1/2 with maxSpeed = 63 the emitted pan
speed byte is 31, the truncation of 31.5, while rounding as the claim
states would give 32. -/
theorem pan_speed_truncates_not_rounds :
    (pelcoApplyJoystick (pelcoTo pelcoCreate 1) ((1 : ℚ) / 2) 0 0 false false false 63).data1 = 31 ∧
    round ((63 : ℚ) * |(1 : ℚ) / 2|) = 32 := by
  have habs : |(1 : ℚ) / 2| = 1 / 2 := abs_of_pos (by norm_num)
  constructor
  · rw [applyJoystick_data1, habs]
    have hfl : ⌊((63 : Int) : ℚ) * (1 / 2)⌋ = 31 := by
      rw [Int.floor_eq_iff]
      push_cast
      norm_num
    unfold uint8OfRat ratTrunc
    rw [if_pos (by push_cast; norm_num), hfl]
    decide
  · rw [round_eq, habs]
    have h32 : (63 : ℚ) * (1 / 2) + 1 / 2 = ((32 : ℤ) : ℚ) := by norm_num
    rw [h32, Int.floor_intCast]

/-- C10 amended: when both zoom buttons are pressed and the menu input is
not asserted, zoom-out wins: bit 6 of command2 is set and bit 5 clear, for
a frame built on the create/setAddress pipeline buffer. -/
theorem zoom_out_precedence_no_menu (a : Int) (state : JoystickState) (maxSpeed : Int)
    (hOut : isPressed state ptz.ZoomOut = true) (_hIn : isPressed state ptz.ZoomIn = true)
    (hMenu : isPressed state ptz.OpenMenu = false) :
    ((joystickToPelco (pelcoTo pelcoCreate a) state maxSpeed).command2.testBit 6 = true) ∧
    ((joystickToPelco (pelcoTo pelcoCreate a) state maxSpeed).command2.testBit 5 = false) := by
  have key : ∀ x y : ℚ,
      ((((0 ||| (if x > 0 then 2 else if x < 0 then 4 else 0)) |||
        (if y > 0 then 8 else if y < 0 then 16 else 0)) ||| 64 : ℕ).testBit 6 = true) ∧
      ((((0 ||| (if x > 0 then 2 else if x < 0 then 4 else 0)) |||
        (if y > 0 then 8 else if y < 0 then 16 else 0)) ||| 64 : ℕ).testBit 5 = false) := by
    intro x y
    constructor <;> (split_ifs <;> decide)
  unfold joystickToPelco
  simp only [hMenu, hOut, if_true, Bool.false_eq_true, if_false]
  rw [applyJoystick_command2]
  have hb : (pelcoTo pelcoCreate a).command2 = 0 := rfl
  rw [hb]
  have hz : (if (-1 : ℚ) > 0 then 32 else if (-1 : ℚ) < 0 then 64 else (0 : ℕ)) = 64 := by
    norm_num
  rw [hz]
  exact key _ _

/-- C10 counterexample: with both zoom buttons and the menu button pressed
in one snapshot, the mapped frame is the preset-95 shortcut (command2 =
0x03), so bit 6 is clear, contrary to the claim read over every snapshot
with both zoom buttons pressed. -/
theorem zoom_out_precedence_fails_with_menu :
    isPressed { AxisData := [0, 0, 0, 0, 0, 0, 0, 0], Buttons := 176 } ptz.ZoomOut = true ∧
    isPressed { AxisData := [0, 0, 0, 0, 0, 0, 0, 0], Buttons := 176 } ptz.ZoomIn = true ∧
    (joystickToPelco (pelcoTo pelcoCreate 1)
      { AxisData := [0, 0, 0, 0, 0, 0, 0, 0], Buttons := 176 } 63).command2 = 3 ∧
    (joystickToPelco (pelcoTo pelcoCreate 1)
      { AxisData := [0, 0, 0, 0, 0, 0, 0, 0], Buttons := 176 } 63).command2.testBit 6 = false := by
  refine ⟨by decide, by decide, by decide, by decide⟩

/-- Witness for C6 at panX = 1/2, panY = 0, zoom = 0, maxSpeed = 63. -/
theorem pan_bits_and_speed_truncation_witness :
    ((pelcoApplyJoystick (pelcoTo pelcoCreate 1) ((1 : ℚ) / 2) 0 0 false false false 63).command2.testBit 1 = true
        ↔ 0 < (1 : ℚ) / 2) ∧
    ((pelcoApplyJoystick (pelcoTo pelcoCreate 1) ((1 : ℚ) / 2) 0 0 false false false 63).command2.testBit 2 = true
        ↔ (1 : ℚ) / 2 < 0) ∧
    ¬((pelcoApplyJoystick (pelcoTo pelcoCreate 1) ((1 : ℚ) / 2) 0 0 false false false 63).command2.testBit 1 = true ∧
      (pelcoApplyJoystick (pelcoTo pelcoCreate 1) ((1 : ℚ) / 2) 0 0 false false false 63).command2.testBit 2 = true) ∧
    (pelcoApplyJoystick (pelcoTo pelcoCreate 1) ((1 : ℚ) / 2) 0 0 false false false 63).data1 =
      (⌊((63 : Int) : ℚ) * |(1 : ℚ) / 2|⌋).toNat :=
  pan_bits_and_speed_truncation (pelcoTo pelcoCreate 1) ((1 : ℚ) / 2) 0 0 false false 63
    rfl (by norm_num) (by norm_num) (by decide) (by decide)

/-- Witness for C10: both bumpers held, menu not pressed, neutral sticks. -/
theorem zoom_out_precedence_no_menu_witness :
    ((joystickToPelco (pelcoTo pelcoCreate 1)
        { AxisData := [0, 0, 0, 0, 0, 0, 0, 0], Buttons := 48 } 63).command2.testBit 6 = true) ∧
    ((joystickToPelco (pelcoTo pelcoCreate 1)
        { AxisData := [0, 0, 0, 0, 0, 0, 0, 0], Buttons := 48 } 63).command2.testBit 5 = false) :=
  zoom_out_precedence_no_menu 1 { AxisData := [0, 0, 0, 0, 0, 0, 0, 0], Buttons := 48 } 63
    (by decide) (by decide) (by decide)

theorem stepAddressPermit_fst_stable (a : Int) (p : Bool) (js : JoystickState) :
    (stepAddressPermit (stepAddressPermit a p js).1 (stepAddressPermit a p js).2 js).1 =
      (stepAddressPermit a p js).1 := by
  unfold stepAddressPermit
  cases hd : isPressed js ptz.DecPelcoAddr <;> cases hi : isPressed js ptz.IncPelcoAddr <;>
    cases p <;> simp [hd, hi]

theorem pelcoLines_marks (c1 c2 : Bool) :
    pelcoLines ((if c1 then [RecordLine.markLeft] else []) ++
      (if c2 then [RecordLine.markRight] else [])) = [] := by
  cases c1 <;> cases c2 <;> rfl

theorem interactiveStep_else (ms : Int) (se : Bool) (s : LoopState) (js : JoystickState)
    (now : Int)
    (h : buildMessage (stepAddressPermit s.address s.permitAvailable js).1 js ms = s.lastMessage) :
    interactiveStep ms se s js now =
      ({ address := (stepAddressPermit s.address s.permitAvailable js).1,
         resetTimer := if isPressed js ptz.ResetTimer then true else s.resetTimer,
         startTime := s.startTime, lastMessage := s.lastMessage,
         permitAvailable := (stepAddressPermit s.address s.permitAvailable js).2 },
       { console := [],
         recordLines := (if isMarkTriggered js ptz.MarkLeft then [RecordLine.markLeft] else []) ++
           (if isMarkTriggered js ptz.MarkRight then [RecordLine.markRight] else []),
         device := [] }) := by
  simp only [interactiveStep]
  rw [if_neg (not_not_intro h.symm)]

theorem interactiveStep_emit (ms : Int) (se : Bool) (s : LoopState) (js : JoystickState)
    (now : Int)
    (h : buildMessage (stepAddressPermit s.address s.permitAvailable js).1 js ms ≠ s.lastMessage) :
    interactiveStep ms se s js now =
      ({ address := (stepAddressPermit s.address s.permitAvailable js).1,
         resetTimer := false, startTime := now,
         lastMessage := buildMessage (stepAddressPermit s.address s.permitAvailable js).1 js ms,
         permitAvailable := (stepAddressPermit s.address s.permitAvailable js).2 },
       { console := [(buildMessage (stepAddressPermit s.address s.permitAvailable js).1 js ms,
           if (if isPressed js ptz.ResetTimer then true else s.resetTimer) then 0
           else (now - s.startTime) / 1000000)],
         recordLines := ((if isMarkTriggered js ptz.MarkLeft then [RecordLine.markLeft] else []) ++
           (if isMarkTriggered js ptz.MarkRight then [RecordLine.markRight] else [])) ++
           [RecordLine.pelco (buildMessage (stepAddressPermit s.address s.permitAvailable js).1 js ms)
             (if (if isPressed js ptz.ResetTimer then true else s.resetTimer) then 0
              else (now - s.startTime) / 1000000)],
         device := if se
           then [buildMessage (stepAddressPermit s.address s.permitAvailable js).1 js ms]
           else [] }) := by
  simp only [interactiveStep]
  rw [if_pos (fun hc => h (hc.symm))]

/-- C7 amended: when the frame built from the snapshot (after the
rate-limited address adjustment) equals the previously emitted frame, the
iteration emits no console output, no device write and no pelco-d record
line, and leaves the previous frame and the clock reference unchanged;
mark comment lines may still be appended, and the reset flag and address
may still change.  The second of two consecutive identical snapshots never
emits a pelco-d line, so the pair yields exactly one pelco-d record line
when the first frame differs from the previously emitted one. -/
theorem duplicate_suppression_amended (ms : Int) (se : Bool) (s : LoopState)
    (js : JoystickState) (now now' : Int) :
    (buildMessage (stepAddressPermit s.address s.permitAvailable js).1 js ms = s.lastMessage →
      (interactiveStep ms se s js now).2.console = [] ∧
      (interactiveStep ms se s js now).2.device = [] ∧
      pelcoLines (interactiveStep ms se s js now).2.recordLines = [] ∧
      (interactiveStep ms se s js now).1.lastMessage = s.lastMessage ∧
      (interactiveStep ms se s js now).1.startTime = s.startTime) ∧
    pelcoLines (interactiveStep ms se (interactiveStep ms se s js now).1 js now').2.recordLines = [] ∧
    (buildMessage (stepAddressPermit s.address s.permitAvailable js).1 js ms ≠ s.lastMessage →
      (pelcoLines ((interactiveStep ms se s js now).2.recordLines ++
        (interactiveStep ms se (interactiveStep ms se s js now).1 js now').2.recordLines)).length = 1) := by
  by_cases h : buildMessage (stepAddressPermit s.address s.permitAvailable js).1 js ms = s.lastMessage
  · have h1 := interactiveStep_else ms se s js now h
    have h2 : buildMessage
        (stepAddressPermit (stepAddressPermit s.address s.permitAvailable js).1
          (stepAddressPermit s.address s.permitAvailable js).2 js).1 js ms = s.lastMessage := by
      rw [stepAddressPermit_fst_stable]; exact h
    have h3 := interactiveStep_else ms se
      { address := (stepAddressPermit s.address s.permitAvailable js).1,
        resetTimer := if isPressed js ptz.ResetTimer then true else s.resetTimer,
        startTime := s.startTime, lastMessage := s.lastMessage,
        permitAvailable := (stepAddressPermit s.address s.permitAvailable js).2 } js now' h2
    refine ⟨fun _ => ?_, ?_, fun hne => absurd h hne⟩
    · rw [h1]
      exact ⟨rfl, rfl, pelcoLines_marks _ _, rfl, rfl⟩
    · rw [h1, h3]
      exact pelcoLines_marks _ _
  · have h1 := interactiveStep_emit ms se s js now h
    have h2 : buildMessage
        (stepAddressPermit (stepAddressPermit s.address s.permitAvailable js).1
          (stepAddressPermit s.address s.permitAvailable js).2 js).1 js ms =
        buildMessage (stepAddressPermit s.address s.permitAvailable js).1 js ms := by
      rw [stepAddressPermit_fst_stable]
    have h3 := interactiveStep_else ms se
      { address := (stepAddressPermit s.address s.permitAvailable js).1,
        resetTimer := false, startTime := now,
        lastMessage := buildMessage (stepAddressPermit s.address s.permitAvailable js).1 js ms,
        permitAvailable := (stepAddressPermit s.address s.permitAvailable js).2 } js now' h2
    refine ⟨fun heq => absurd heq h, ?_, fun _ => ?_⟩
    · rw [h1, h3]
      exact pelcoLines_marks _ _
    · rw [h1, h3]
      cases hml : isMarkTriggered js ptz.MarkLeft <;>
        cases hmr : isMarkTriggered js ptz.MarkRight <;>
          simp [pelcoLines, List.filter_append]

theorem uint8OfRat_zero : uint8OfRat 0 = 0 := by
  unfold uint8OfRat ratTrunc
  norm_num

theorem joystickToPelco_neutral (a maxSpeed : Int) (js : JoystickState)
    (hx : normalizeAxis js ptz.PanX = 0) (hy : normalizeAxis js ptz.PanY = 0)
    (hzo : isPressed js ptz.ZoomOut = false) (hzi : isPressed js ptz.ZoomIn = false)
    (hoi : isPressed js ptz.OpenIris = false) (hci : isPressed js ptz.CloseIris = false)
    (hom : isPressed js ptz.OpenMenu = false) :
    buildMessage a js maxSpeed = pelcoChecksum (pelcoTo pelcoCreate a) := by
  unfold buildMessage joystickToPelco
  rw [hx, hy]
  simp only [hzo, hzi, hoi, hci, hom, Bool.false_eq_true, if_false]
  norm_num [pelcoApplyJoystick, panStage, panSpeedStage, tiltStage, tiltSpeedStage,
    zoomStage, irisStage, uint8OfRat_zero, pelcoTo, pelcoCreate]

/-- C7 counterexample: a snapshot holding the left trigger and the Back
button maps to the same frame as the previous iteration, yet the iteration
appends a mark comment line to the record sink and flips the reset-timer
flag, contradicting the claim that nothing is emitted and the clock state
is unchanged. -/
theorem duplicate_frame_still_writes_mark_line :
    buildMessage 5 { AxisData := [0, 0, 32767, 0, 0, 0, 0, 0], Buttons := 64 } 63 =
      ({ address := 5, resetTimer := false, startTime := 0,
         lastMessage := { sync := 255, addr := 5, command1 := 0, command2 := 0,
                          data1 := 0, data2 := 0, checksum := 5 },
         permitAvailable := true } : LoopState).lastMessage ∧
    (interactiveStep 63 true
        { address := 5, resetTimer := false, startTime := 0,
          lastMessage := { sync := 255, addr := 5, command1 := 0, command2 := 0,
                           data1 := 0, data2 := 0, checksum := 5 },
          permitAvailable := true }
        { AxisData := [0, 0, 32767, 0, 0, 0, 0, 0], Buttons := 64 } 999).2.recordLines =
      [RecordLine.markLeft] ∧
    (interactiveStep 63 true
        { address := 5, resetTimer := false, startTime := 0,
          lastMessage := { sync := 255, addr := 5, command1 := 0, command2 := 0,
                           data1 := 0, data2 := 0, checksum := 5 },
          permitAvailable := true }
        { AxisData := [0, 0, 32767, 0, 0, 0, 0, 0], Buttons := 64 } 999).1.resetTimer = true := by
  have hmsg : buildMessage 5 { AxisData := [0, 0, 32767, 0, 0, 0, 0, 0], Buttons := 64 } 63 =
      { sync := 255, addr := 5, command1 := 0, command2 := 0,
        data1 := 0, data2 := 0, checksum := 5 } := by
    rw [joystickToPelco_neutral 5 63 _ (by decide) (by decide) (by decide) (by decide)
      (by decide) (by decide) (by decide)]
    decide
  have hap : stepAddressPermit 5 true
      { AxisData := [0, 0, 32767, 0, 0, 0, 0, 0], Buttons := 64 } = (5, true) := by decide
  have hcond : buildMessage
      (stepAddressPermit (5 : Int) true
        { AxisData := [0, 0, 32767, 0, 0, 0, 0, 0], Buttons := 64 }).1
      { AxisData := [0, 0, 32767, 0, 0, 0, 0, 0], Buttons := 64 } 63 =
      { sync := 255, addr := 5, command1 := 0, command2 := 0,
        data1 := 0, data2 := 0, checksum := 5 } := by
    rw [hap]; exact hmsg
  have hstep := interactiveStep_else 63 true
      { address := 5, resetTimer := false, startTime := 0,
        lastMessage := { sync := 255, addr := 5, command1 := 0, command2 := 0,
                         data1 := 0, data2 := 0, checksum := 5 },
        permitAvailable := true }
      { AxisData := [0, 0, 32767, 0, 0, 0, 0, 0], Buttons := 64 } 999 hcond
  refine ⟨hmsg, ?_, ?_⟩
  · rw [hstep]
    have hnl : normalizeAxis { AxisData := [0, 0, 32767, 0, 0, 0, 0, 0], Buttons := 64 }
        ptz.MarkLeft = 1 := by
      unfold normalizeAxis
      norm_num [ptz, xbox, AxisMax]
    have hnr : normalizeAxis { AxisData := [0, 0, 32767, 0, 0, 0, 0, 0], Buttons := 64 }
        ptz.MarkRight = 0 := by decide
    have hml : isMarkTriggered { AxisData := [0, 0, 32767, 0, 0, 0, 0, 0], Buttons := 64 }
        ptz.MarkLeft = true := by
      unfold isMarkTriggered
      rw [hnl]
      norm_num
    have hmr : isMarkTriggered { AxisData := [0, 0, 32767, 0, 0, 0, 0, 0], Buttons := 64 }
        ptz.MarkRight = false := by
      unfold isMarkTriggered
      rw [hnr]
      norm_num
    simp [hml, hmr]
  · rw [hstep]
    decide

/-- Witness for C7 amended: a fresh state and a neutral snapshot processed
twice emit exactly one pelco-d record line. -/
theorem duplicate_suppression_amended_witness :
    (pelcoLines ((interactiveStep 63 true
        { address := 0, resetTimer := false, startTime := 0,
          lastMessage := { sync := 0, addr := 0, command1 := 0, command2 := 0,
                           data1 := 0, data2 := 0, checksum := 0 },
          permitAvailable := true }
        { AxisData := [0, 0, 0, 0, 0, 0, 0, 0], Buttons := 0 } 5).2.recordLines ++
      (interactiveStep 63 true
        (interactiveStep 63 true
          { address := 0, resetTimer := false, startTime := 0,
            lastMessage := { sync := 0, addr := 0, command1 := 0, command2 := 0,
                             data1 := 0, data2 := 0, checksum := 0 },
            permitAvailable := true }
          { AxisData := [0, 0, 0, 0, 0, 0, 0, 0], Buttons := 0 } 5).1
        { AxisData := [0, 0, 0, 0, 0, 0, 0, 0], Buttons := 0 } 9).2.recordLines)).length = 1 :=
  (duplicate_suppression_amended 63 true
    { address := 0, resetTimer := false, startTime := 0,
      lastMessage := { sync := 0, addr := 0, command1 := 0, command2 := 0,
                       data1 := 0, data2 := 0, checksum := 0 },
      permitAvailable := true }
    { AxisData := [0, 0, 0, 0, 0, 0, 0, 0], Buttons := 0 } 5 9).2.2 (by
      have hb : buildMessage 0 { AxisData := [0, 0, 0, 0, 0, 0, 0, 0], Buttons := 0 } 63 =
          { sync := 255, addr := 0, command1 := 0, command2 := 0,
            data1 := 0, data2 := 0, checksum := 0 } := by
        rw [joystickToPelco_neutral 0 63 _ (by decide) (by decide) (by decide) (by decide)
          (by decide) (by decide) (by decide)]
        decide
      have hap : stepAddressPermit 0 true
          { AxisData := [0, 0, 0, 0, 0, 0, 0, 0], Buttons := 0 } = (0, true) := by decide
      have key : buildMessage
          (stepAddressPermit (0 : Int) true
            { AxisData := [0, 0, 0, 0, 0, 0, 0, 0], Buttons := 0 }).1
          { AxisData := [0, 0, 0, 0, 0, 0, 0, 0], Buttons := 0 } 63 =
          { sync := 255, addr := 0, command1 := 0, command2 := 0,
            data1 := 0, data2 := 0, checksum := 0 } := by
        rw [hap]; exact hb
      intro h
      rw [key] at h
      exact absurd h (by decide))

theorem sendTimesAux_spacing (lat : Nat → Nat) :
    ∀ (ms : List DelayedMessage) (t k i : Nat), i + 1 < ms.length →
      (sendTimesAux lat ms t k).getD i 0 + (ms.getD (i + 1) dummyDelayed).Delay ≤
        (sendTimesAux lat ms t k).getD (i + 1) 0
  | [], t, k, i, h => absurd h (by simp)
  | m :: rest, t, k, 0, h => by
    match rest, h with
    | m2 :: r2, _ =>
      simp [sendTimesAux, List.getD]
  | m :: rest, t, k, i + 1, h => by
    have ih := sendTimesAux_spacing lat rest (t + lat k + m.Delay) (k + 1) i
      (by simpa using h)
    simpa [sendTimesAux, List.getD_cons_succ] using ih

/-- C8: the first frame of the replay queue is sent at the start instant
plus scheduling latency only (its delay never contributes a wait), and
every later frame is sent no earlier than its own delay after the previous
frame's send, for every nonnegative scheduling latency. -/
theorem replay_pacing_lower_bound (start : Nat) (lat : Nat → Nat) (msgs : List DelayedMessage)
    (i : Nat) (h : i + 1 < msgs.length) :
    (sendTimes start lat msgs).getD 0 0 = start + lat 0 ∧
    (sendTimes start lat msgs).getD i 0 + (msgs.getD (i + 1) dummyDelayed).Delay ≤
      (sendTimes start lat msgs).getD (i + 1) 0 := by
  match msgs, h with
  | m :: rest, h =>
    refine ⟨rfl, ?_⟩
    match i with
    | 0 =>
      match rest, h with
      | m2 :: r2, _ =>
        simp [sendTimes, sendTimesAux, List.getD]
    | j + 1 =>
      have ih := sendTimesAux_spacing lat rest (start + lat 0) 1 j (by simpa using h)
      simpa [sendTimes, List.getD_cons_succ] using ih

/-- Witness for C8 at the example of the spec: F1 with delay 0 and F2 with
delay 200 ms (200000000 ns) under an ideal scheduler; F1 goes out at the
start instant and F2 no earlier than 200 ms later. -/
theorem replay_pacing_lower_bound_witness :
    (sendTimes 0 (fun _ => 0)
        [{ Message := pelcoCreate, Delay := 0 },
         { Message := pelcoCreate, Delay := 200000000 }]).getD 0 0 = 0 + (fun _ => 0) 0 ∧
    (sendTimes 0 (fun _ => 0)
        [{ Message := pelcoCreate, Delay := 0 },
         { Message := pelcoCreate, Delay := 200000000 }]).getD 0 0 +
      ([{ Message := pelcoCreate, Delay := 0 },
        { Message := pelcoCreate, Delay := 200000000 }].getD 1 dummyDelayed).Delay ≤
      (sendTimes 0 (fun _ => 0)
        [{ Message := pelcoCreate, Delay := 0 },
         { Message := pelcoCreate, Delay := 200000000 }]).getD 1 0 :=
  replay_pacing_lower_bound 0 (fun _ => 0)
    [{ Message := pelcoCreate, Delay := 0 }, { Message := pelcoCreate, Delay := 200000000 }]
    0 (by decide)

/-- C9 counterexample: listenFile forwards the non-blank line "hi" (bytes
104, 105) on the same channel whose receive makes the select loop return,
so consuming a non-blank input line does terminate the loop, contradicting
the claim. -/
theorem nonblank_line_terminates_loop :
    listenFileEvents [[104, 105]] = [StdinEvent.line [104, 105], StdinEvent.closed] ∧
    interactiveRun 63 true
      { address := 0, resetTimer := false, startTime := 0, lastMessage := pelcoCreate,
        permitAvailable := true }
      [LoopEvent.stdin (StdinEvent.line [104, 105])] = ([], true) :=
  ⟨rfl, rfl⟩

/-- C9 amended: the loop terminates exactly when the stdin observer
channel yields any event.  The stdin task forwards every non-blank line
and closes the channel at the first blank line or end of stream; a
forwarded line and the close both make the loop return, while joystick
samples alone never do. -/
theorem loop_terminates_iff_stdin_event (ms : Int) (se : Bool) (s : LoopState)
    (evs : List LoopEvent) :
    (interactiveRun ms se s evs).2 = evs.any LoopEvent.isStdin := by
  induction evs generalizing s with
  | nil => rfl
  | cons e rest ih =>
    cases e with
    | stdin e' => simp [interactiveRun, LoopEvent.isStdin]
    | js st now => simp [interactiveRun, LoopEvent.isStdin, ih]
